import Mathlib

/-!
Shallow embedding of the content script of the "chrome-highlevel-page-title-in-tab"
extension (src/content.js, first revision, lines 1-536, the one the claims cite).

Strings are modelled as Lean `String` (a list of characters); `.length` counts
characters, which agrees with JavaScript's UTF-16 `.length` on all inputs used
here (no astral-plane characters).  JavaScript regular expressions are
hand-translated into character-list scans, documented next to each definition.
-/

namespace GhlTabTitle

/-- JavaScript whitespace class `\s` (also the set removed by
`String.prototype.trim`): tab, LF, VT, FF, CR, space, NBSP, Ogham space,
the U+2000..U+200A range, LS, PS, NNBSP, MMSP, ideographic space, BOM. -/
def isJsSpace (c : Char) : Bool :=
  c.toNat = 9 || c.toNat = 10 || c.toNat = 11 || c.toNat = 12 || c.toNat = 13 ||
  c.toNat = 32 || c.toNat = 160 || c.toNat = 0x1680 ||
  (0x2000 ≤ c.toNat && c.toNat ≤ 0x200a) ||
  c.toNat = 0x2028 || c.toNat = 0x2029 || c.toNat = 0x202f || c.toNat = 0x205f ||
  c.toNat = 0x3000 || c.toNat = 0xfeff

/-- The regex character class `[A-Za-z0-9]`. -/
def isAsciiAlnum (c : Char) : Bool :=
  (48 ≤ c.toNat && c.toNat ≤ 57) ||
  (65 ≤ c.toNat && c.toNat ≤ 90) ||
  (97 ≤ c.toNat && c.toNat ≤ 122)

/-- The regex character class `[a-z]`. -/
def isAsciiLower (c : Char) : Bool :=
  97 ≤ c.toNat && c.toNat ≤ 122

/-- The regex character class `[A-Z]`. -/
def isAsciiUpper (c : Char) : Bool :=
  65 ≤ c.toNat && c.toNat ≤ 90

/-- JavaScript `text.replace(/\s+/g, ' ')`: each maximal run of whitespace
characters becomes a single space. -/
def collapseWs : List Char → List Char
  | [] => []
  | c :: rest =>
    if isJsSpace c then
      match rest with
      | [] => [' ']
      | c2 :: _ => if isJsSpace c2 then collapseWs rest else ' ' :: collapseWs rest
    else c :: collapseWs rest

/-- JavaScript `String.prototype.trim` (drops `\s` characters at both ends). -/
def jsTrim (s : String) : String :=
  String.mk (((s.data.dropWhile isJsSpace).reverse.dropWhile isJsSpace).reverse)

/-- `cleanContext` (src/content.js lines 408-413): collapse whitespace runs,
trim, truncate to 60 characters. -/
def cleanContext (text : String) : String :=
  String.mk ((jsTrim (String.mk (collapseWs text.data))).data.take 60)

/-- `isHumanReadable` (src/content.js lines 268-275).  The regex test
`/^[A-Za-z0-9]{15,}$/.test(noSpaces)` holds exactly when `noSpaces` is all
ASCII alphanumerics and has length at least 15; `/\s/.test(text)` holds
exactly when some character of `text` is JS whitespace. -/
def isHumanReadable (text : String) : Bool :=
  if text = "" ∨ text.length < 2 then false
  else
    let noSpaces := text.data.filter (fun c => !(isJsSpace c))
    if (15 ≤ noSpaces.length ∧ noSpaces.all isAsciiAlnum = true) ∧
        text.data.any isJsSpace = false then false
    else true

/-- JavaScript `s.split(sep)` for a one-character separator: keeps empty
pieces. -/
def splitOnChar (sep : Char) : List Char → List (List Char)
  | [] => [[]]
  | c :: rest =>
    let r := splitOnChar sep rest
    if c = sep then [] :: r
    else
      match r with
      | w :: ws => (c :: w) :: ws
      | [] => [[c]]

/-- JavaScript `words.join(' ')`. -/
def joinSpace : List (List Char) → List Char
  | [] => []
  | [w] => w
  | w :: ws => w ++ ' ' :: joinSpace ws

/-- The replacement `segment.replace(/([a-z])([A-Z])/g, '$1 $2')`: a space is
inserted at each lower-to-upper boundary; after a match the regex engine
resumes after the matched pair. -/
def camelSplit : List Char → List Char
  | [] => []
  | [c] => [c]
  | c1 :: c2 :: rest =>
    if isAsciiLower c1 && isAsciiUpper c2 then c1 :: ' ' :: c2 :: camelSplit rest
    else c1 :: camelSplit (c2 :: rest)

/-- `word.charAt(0).toUpperCase() + word.slice(1).toLowerCase()` (ASCII case
mapping, which is what `Char.toUpper`/`Char.toLower` implement and what the
inputs here exercise). -/
def capitalizeWord : List Char → List Char
  | [] => []
  | c :: rest => Char.toUpper c :: rest.map Char.toLower

/-- `formatPathSegment` (src/content.js lines 386-393): hyphens and
underscores become spaces, camel-case boundaries are split, and each
space-delimited word is capitalized. -/
def formatPathSegment (seg : String) : String :=
  let dashed := seg.data.map (fun c => if c = '-' || c = '_' then ' ' else c)
  let words := splitOnChar ' ' (camelSplit dashed)
  String.mk (joinSpace (words.map capitalizeWord))

/-- The regex test `/^[0-9a-zA-Z-]{15,}$/i.test(segment)` used by
`extractFromUrlPath` to skip identifier-shaped segments: every character is
an ASCII alphanumeric or a hyphen, and the length is at least 15.  (The `i`
flag is redundant for this class.) -/
def isIdShaped (seg : String) : Bool :=
  15 ≤ seg.length && seg.data.all (fun c => isAsciiAlnum c || c = '-')

/-- `segment.toLowerCase()` (ASCII case mapping; the result is only compared
against the all-ASCII `skipWords`). -/
def jsToLower (s : String) : String :=
  String.mk (s.data.map Char.toLower)

/-- The `skipWords` list of `extractFromUrlPath` (src/content.js lines
364-365). -/
def skipWords : List String :=
  ["v2", "location", "detail", "edit", "new", "form-builder-v2",
   "form-builder", "__", "auth", "iframe", "callback"]

/-- The backwards loop of `extractFromUrlPath` over the path segments, given
here the reversed segment list: take the last segment that is neither
identifier-shaped nor a skip word and whose formatted form has length
greater than 3. -/
def urlPathPick : List String → Option String
  | [] => none
  | seg :: rest =>
    if !(isIdShaped seg) && !(skipWords.contains (jsToLower seg)) then
      let formatted := formatPathSegment seg
      if 3 < formatted.length then some formatted else urlPathPick rest
    else urlPathPick rest

/-- `extractFromUrlPath` (src/content.js lines 359-381), as a function of the
pathname: `path.split('/')` keeping only non-empty segments, then the
backwards scan. -/
def extractFromUrlPath (path : String) : Option String :=
  let segments := ((splitOnChar '/' path.data).map String.mk).filter (fun s => s ≠ "")
  urlPathPick segments.reverse

/-- The capture `[^\/]+` after a match of `/location/`: the maximal run of
non-slash characters. -/
def segTake : List Char → List Char
  | [] => []
  | c :: r => if c = '/' then [] else c :: segTake r

/-- Scan for the regex `\/(?:v2\/)?location\/([^\/]+)` and return the first
capture.  Every match of that regex places the literal `/location/` right
before the capture (the optional `v2/` only extends the match to the left
without changing the capture), and the engine retries from the next start
position when the capture would be empty; so the first capture is the
maximal non-slash run after the leftmost occurrence of `/location/` that is
followed by at least one non-slash character. -/
def locFind : List Char → Option (List Char)
  | [] => none
  | c :: rest =>
    if (c :: rest).take 10 = "/location/".data then
      match segTake ((c :: rest).drop 10) with
      | [] => locFind rest
      | cap => some cap
    else locFind rest

/-- `str.match(/\/(?:v2\/)?location\/([^\/]+)/)`, returning the capture. -/
def locMatch (s : String) : Option String :=
  (locFind s.data).map String.mk

/-- The URL-related state a frame sees: its own `location.pathname`, its
`document.referrer` (the empty string when absent), and the parent frame's
pathname — `none` when there is no distinct parent or accessing
`window.parent.location` throws (cross-origin), which the code catches. -/
structure UrlState where
  pathname : String
  referrer : String
  parentPath : Option String
deriving DecidableEq

/-- `getLocationId` (src/content.js lines 62-84): try the frame's own
pathname, then the referrer when non-empty (`if (document.referrer)`), then
the parent frame's pathname when accessible. -/
def getLocationId (st : UrlState) : Option String :=
  match locMatch st.pathname with
  | some id => some id
  | none =>
    match (if st.referrer ≠ "" then locMatch st.referrer else none) with
    | some id => some id
    | none =>
      match st.parentPath with
      | some p => locMatch p
      | none => none

/-- `CONFIG.locationNames` (src/content.js lines 18-21). -/
def locationNames : List (String × String) :=
  [("IgHEOk98NvraO0gtWVaL", "FedImpact"), ("8K55T8slMH0JRhCDHBEW", "ProFeds")]

/-- The own-property part of the JavaScript lookup
`CONFIG.locationNames[locationId]`: a hit on one of the object literal's own
keys yields its string value.  `bracketLookup` below adds the prototype
chain. -/
def lookupLocationName (id : String) : Option String :=
  (locationNames.find? (fun p => p.1 = id)).map (fun p => p.2)

/-- The property names an object literal inherits from `Object.prototype`:
a bracket lookup with one of these names yields a truthy non-string value
(a function, or `Object.prototype` itself for `__proto__`) even though the
name is not a key of the table. -/
def objectProtoProps : List String :=
  ["constructor", "hasOwnProperty", "isPrototypeOf", "propertyIsEnumerable",
   "toLocaleString", "toString", "valueOf", "__proto__",
   "__defineGetter__", "__defineSetter__", "__lookupGetter__", "__lookupSetter__"]

/-- Outcome of the full JavaScript bracket lookup
`CONFIG.locationNames[id]`: an own key yields its string value; a property
inherited from `Object.prototype` yields a truthy non-string value; any
other name yields `undefined` (falsy). -/
inductive BracketLookup where
  | own : String → BracketLookup
  | inherited : BracketLookup
  | undef : BracketLookup
deriving DecidableEq

/-- The bracket lookup on the `CONFIG.locationNames` object literal: own
keys shadow the prototype chain. -/
def bracketLookup (id : String) : BracketLookup :=
  match lookupLocationName id with
  | some b => BracketLookup.own b
  | none =>
    if objectProtoProps.contains id then BracketLookup.inherited
    else BracketLookup.undef

/-- The value `getBrandName` returns in JavaScript: a string (a table value
or the default brand), or — when the extracted id names an inherited
`Object.prototype` member — that member's truthy non-string value, which the
embedding records only by the name it was looked up under. -/
inductive JsBrandValue where
  | str : String → JsBrandValue
  | nonString : String → JsBrandValue
deriving DecidableEq

/-- `CONFIG.defaultBrandName`. -/
def defaultBrandName : String := "GHL"

/-- `CONFIG.titleSeparator`. -/
def titleSeparator : String := " | "

/-- `getBrandName` (src/content.js lines 89-95), full model: the condition
`locationId && CONFIG.locationNames[locationId]` takes the looked-up value
when the id is truthy and the lookup truthy — an own key (table values are
non-empty strings, hence truthy) or an inherited `Object.prototype` member —
and the default brand string otherwise. -/
def getBrandValue (st : UrlState) : JsBrandValue :=
  match getLocationId st with
  | some id =>
    if id ≠ "" then
      match bracketLookup id with
      | BracketLookup.own b => JsBrandValue.str b
      | BracketLookup.inherited => JsBrandValue.nonString id
      | BracketLookup.undef => JsBrandValue.str defaultBrandName
    else JsBrandValue.str defaultBrandName
  | none => JsBrandValue.str defaultBrandName

/-- `getBrandName` restricted to the string-valued case: the brand string
the function returns whenever the extracted id is not an inherited
`Object.prototype` property name (`getBrandValue_eq_str` below makes the
agreement precise).  The title-update claims use documents whose ids are not
prototype property names, where the two models coincide. -/
def getBrandName (st : UrlState) : String :=
  match getLocationId st with
  | some id =>
    if id ≠ "" then
      match lookupLocationName id with
      | some b => b
      | none => defaultBrandName
    else defaultBrandName
  | none => defaultBrandName

/-- Outcome of running one extraction strategy on the current document:
`thrown` when the strategy raised an exception, `noMatch` when it returned
`null` (or `undefined`), `found s` when it returned the string `s`. -/
inductive StratResult where
  | thrown : StratResult
  | noMatch : StratResult
  | found : String → StratResult
deriving DecidableEq

/-- The strategy loop of `extractPageContext` (src/content.js lines
117-126): each strategy's call is wrapped in `try`/`catch` — an exception is
logged and the loop continues — and the first result with
`context && context.trim()` truthy is returned through `cleanContext`.  The
result type `Option String` has no error alternative: the loop never lets a
strategy failure escape. -/
def runStrategies : List StratResult → Option String
  | [] => none
  | r :: rest =>
    match r with
    | StratResult.thrown => runStrategies rest
    | StratResult.noMatch => runStrategies rest
    | StratResult.found s =>
      if s ≠ "" ∧ jsTrim s ≠ "" then some (cleanContext s) else runStrategies rest

/-- The document state one extraction cycle reads.  The six DOM-based
strategies query the live third-party DOM (`document.querySelector` and
friends), which the embedding treats as an oracle: each field records that
strategy's outcome on the current document.  The seventh strategy,
`extractFromUrlPath`, is a pure function of the pathname and is computed,
not recorded. -/
structure DocState where
  url : UrlState
  contactDetail : StratResult
  workflow : StratResult
  formBuilder : StratResult
  activeNavItem : StratResult
  breadcrumbItem : StratResult
  pageHeader : StratResult
deriving DecidableEq

/-- The URL-path strategy as a `StratResult`: `extractFromUrlPath` is pure
string computation and cannot throw. -/
def urlStrat (u : UrlState) : StratResult :=
  match extractFromUrlPath u.pathname with
  | some s => StratResult.found s
  | none => StratResult.noMatch

/-- `extractPageContext` (src/content.js lines 106-129): the seven
strategies in their fixed order — contact detail, workflow, form builder,
active nav item, breadcrumb, page header, URL path. -/
def extractPageContext (doc : DocState) : Option String :=
  runStrategies [doc.contactDetail, doc.workflow, doc.formBuilder,
    doc.activeNavItem, doc.breadcrumbItem, doc.pageHeader, urlStrat doc.url]

/-- What one cascade slot contributes: the cleaned candidate when the
strategy returned a string with `context && context.trim()` truthy, nothing
on a throw, a `null`, or an invalid candidate. -/
def stratHit : StratResult → Option String
  | StratResult.thrown => none
  | StratResult.noMatch => none
  | StratResult.found s =>
    if s ≠ "" ∧ jsTrim s ≠ "" then some (cleanContext s) else none

/-- The application-specific structural detectors, in cascade order
(src/content.js lines 108-110). -/
def structuralStrats (doc : DocState) : List StratResult :=
  [doc.contactDetail, doc.workflow, doc.formBuilder]

/-- The generic UI detectors, in cascade order (src/content.js lines
111-113). -/
def genericStrats (doc : DocState) : List StratResult :=
  [doc.activeNavItem, doc.breadcrumbItem, doc.pageHeader]

/-- The full strategy list of `extractPageContext`: structural detectors,
then generic detectors, then the URL-path fallback. -/
def stratList (doc : DocState) : List StratResult :=
  structuralStrats doc ++ (genericStrats doc ++ [urlStrat doc.url])

/-- The mutable state a frame can write: its document title. -/
structure TitleState where
  title : String
deriving DecidableEq

/-- The structured message a nested frame posts to its parent
(src/content.js lines 429-434). -/
structure TitleMsg where
  msgType : String
  title : String
  context : String
  brandName : String
deriving DecidableEq

/-- Result of one `updateTitle` call: the frame's title state afterwards,
the messages posted to the parent frame, and the number of writes to
`document.title`. -/
structure UpdateResult where
  state : TitleState
  messages : List TitleMsg
  writes : Nat
deriving DecidableEq

/-- The composed title `` `${context}${CONFIG.titleSeparator}${brandName}` ``. -/
def composeTitle (context brandName : String) : String :=
  context ++ titleSeparator ++ brandName

/-- `updateTitle` (src/content.js lines 418-448).  With a context: in an
iframe, post the structured message to the parent (never touch the title);
in the top window, write the title only when it differs from the current
one.  Without a context: do nothing. -/
def updateTitle (inIframe : Bool) (doc : DocState) (s : TitleState) : UpdateResult :=
  match extractPageContext doc with
  | some context =>
    let brandName := getBrandName doc.url
    let newTitle := composeTitle context brandName
    if inIframe then
      { state := s,
        messages := [{ msgType := "GHL_TAB_TITLE_UPDATE", title := newTitle,
                       context := context, brandName := brandName }],
        writes := 0 }
    else
      if s.title ≠ newTitle then
        { state := { title := newTitle }, messages := [], writes := 1 }
      else
        { state := s, messages := [], writes := 0 }
  | none => { state := s, messages := [], writes := 0 }

/-- The top window's message listener (src/content.js lines 453-463): on a
`GHL_TAB_TITLE_UPDATE` message with a truthy title differing from the
current one, write the title; else do nothing.  Returns the new title state
and the number of writes. -/
def handleMessage (m : TitleMsg) (s : TitleState) : TitleState × Nat :=
  if m.msgType = "GHL_TAB_TITLE_UPDATE" ∧ m.title ≠ "" ∧ s.title ≠ m.title then
    ({ title := m.title }, 1)
  else (s, 0)

/-- The candidate guard of `extractFromGHLContactDetail` (src/content.js
line 150): `text && text.length > 1 && text.length < 100`. -/
def contactTextOk (t : String) : Bool :=
  t ≠ "" && 1 < t.length && t.length < 100

/-- The candidate guard of `extractFromGHLFormBuilder` (src/content.js line
250): `text && text.length > 1 && text.length < 100 && isHumanReadable(text)`. -/
def formTextOk (t : String) : Bool :=
  t ≠ "" && 1 < t.length && t.length < 100 && isHumanReadable t

/-- The candidate guard of `extractFromActiveNavItem` (src/content.js line
295): `text && text.length > 1 && text.length < 50 && isHumanReadable(text)`. -/
def navTextOk (t : String) : Bool :=
  t ≠ "" && 1 < t.length && t.length < 50 && isHumanReadable t

/-- The candidate guard of `extractFromBreadcrumb` (src/content.js line
320): same bounds as the nav-item guard. -/
def breadcrumbTextOk (t : String) : Bool :=
  t ≠ "" && 1 < t.length && t.length < 50 && isHumanReadable t

/-- The candidate guard of `extractFromPageHeader` (src/content.js line
346): `text && text.length > 1 && text.length < 60 && isHumanReadable(text)`. -/
def headerTextOk (t : String) : Bool :=
  t ≠ "" && 1 < t.length && t.length < 60 && isHumanReadable t

/-! ## Helper lemmas -/

/-- An ASCII alphanumeric character is not JS whitespace. -/
theorem isAsciiAlnum_not_isJsSpace (c : Char) (h : isAsciiAlnum c = true) :
    isJsSpace c = false := by
  simp only [isAsciiAlnum, Bool.or_eq_true, Bool.and_eq_true, decide_eq_true_eq] at h
  simp only [isJsSpace, Bool.or_eq_false_iff, Bool.and_eq_false_iff,
    decide_eq_false_iff_not]
  omega

/-- The length of a string is the length of its character list. -/
theorem string_length_eq_data (t : String) : t.length = t.data.length := rfl

/-- A composed title is never the empty string. -/
theorem composeTitle_ne_empty (c b : String) : composeTitle c b ≠ "" := by
  intro h
  have hl := congrArg String.length h
  simp only [composeTitle, titleSeparator, String.length_append] at hl
  have h3 : (" | " : String).length = 3 := rfl
  have h0 : ("" : String).length = 0 := rfl
  rw [h3, h0] at hl
  omega

/-! ## Claims -/

/-- C4: every string that is a single contiguous alphanumeric run of length
at least 15 (hence containing no whitespace) is rejected by
`isHumanReadable`. -/
theorem claim_C4 (t : String) (hlen : 15 ≤ t.length)
    (halnum : ∀ c ∈ t.data, isAsciiAlnum c = true) :
    isHumanReadable t = false := by
  have hdata : 15 ≤ t.data.length := by
    rw [← string_length_eq_data]; exact hlen
  have hne : t ≠ "" := by
    intro he; subst he; simp at hdata
  have hfilter : t.data.filter (fun c => !(isJsSpace c)) = t.data := by
    rw [List.filter_eq_self]
    intro c hc
    simp [isAsciiAlnum_not_isJsSpace c (halnum c hc)]
  have hany : t.data.any isJsSpace = false := by
    rw [Bool.eq_false_iff]
    simp only [ne_eq, List.any_eq_true, not_exists, not_and]
    intro c hc
    simp [isAsciiAlnum_not_isJsSpace c (halnum c hc)]
  rw [isHumanReadable, if_neg, if_pos]
  · refine ⟨⟨?_, ?_⟩, hany⟩
    · rw [hfilter]; exact hdata
    · rw [hfilter, List.all_eq_true]; exact halnum
  · push_neg
    exact ⟨hne, by omega⟩

/-- Witness for C4 at the 16-character alphanumeric run
"abcdefgh12345678". -/
theorem claim_C4_witness : isHumanReadable "abcdefgh12345678" = false :=
  claim_C4 "abcdefgh12345678" (by decide) (by decide)

/-- C10: every string of length at least 2 that contains at least one
whitespace character is accepted by `isHumanReadable` — the only rejections
are the short strings and the whitespace-free long alphanumeric runs. -/
theorem claim_C10 (t : String) (hlen : 2 ≤ t.length)
    (hws : t.data.any isJsSpace = true) :
    isHumanReadable t = true := by
  have hne : t ≠ "" := by
    intro he; subst he
    simp [string_length_eq_data] at hlen
  rw [isHumanReadable, if_neg, if_neg]
  · intro h
    rw [h.2] at hws
    exact Bool.false_ne_true hws
  · push_neg
    exact ⟨hne, by omega⟩

/-- Witness for C10 at the string "a b". -/
theorem claim_C10_witness : isHumanReadable "a b" = true :=
  claim_C10 "a b" (by decide) (by decide)

/-- C5: every candidate string shorter than the minimum bound (length 2) or
at least as long as the maximum bound of its context (100 for contact and
form candidates, 50 for nav-item and breadcrumb candidates, 60 for
page-header candidates) is rejected by the corresponding sanitizer guard;
`isHumanReadable` itself also rejects below the minimum. -/
theorem claim_C5 (t : String) :
    (t.length < 2 → isHumanReadable t = false) ∧
    (t.length < 2 ∨ 100 ≤ t.length →
      contactTextOk t = false ∧ formTextOk t = false) ∧
    (t.length < 2 ∨ 50 ≤ t.length →
      navTextOk t = false ∧ breadcrumbTextOk t = false) ∧
    (t.length < 2 ∨ 60 ≤ t.length → headerTextOk t = false) := by
  refine ⟨?_, ?_, ?_, ?_⟩
  · intro h
    rw [isHumanReadable, if_pos (Or.inr h)]
  · intro h
    constructor
    · rw [Bool.eq_false_iff]
      intro hc
      simp only [contactTextOk, ne_eq, Bool.and_eq_true, decide_eq_true_eq] at hc
      obtain ⟨⟨-, h2⟩, h3⟩ := hc
      omega
    · rw [Bool.eq_false_iff]
      intro hc
      simp only [formTextOk, ne_eq, Bool.and_eq_true, decide_eq_true_eq] at hc
      obtain ⟨⟨⟨-, h2⟩, h3⟩, -⟩ := hc
      omega
  · intro h
    constructor
    · rw [Bool.eq_false_iff]
      intro hc
      simp only [navTextOk, ne_eq, Bool.and_eq_true, decide_eq_true_eq] at hc
      obtain ⟨⟨⟨-, h2⟩, h3⟩, -⟩ := hc
      omega
    · rw [Bool.eq_false_iff]
      intro hc
      simp only [breadcrumbTextOk, ne_eq, Bool.and_eq_true, decide_eq_true_eq] at hc
      obtain ⟨⟨⟨-, h2⟩, h3⟩, -⟩ := hc
      omega
  · intro h
    rw [Bool.eq_false_iff]
    intro hc
    simp only [headerTextOk, ne_eq, Bool.and_eq_true, decide_eq_true_eq] at hc
    obtain ⟨⟨⟨-, h2⟩, h3⟩, -⟩ := hc
    omega

/-- Witness for C5 at the below-minimum string "x". -/
theorem claim_C5_witness :
    isHumanReadable "x" = false ∧ contactTextOk "x" = false ∧
    formTextOk "x" = false ∧ navTextOk "x" = false ∧
    breadcrumbTextOk "x" = false ∧ headerTextOk "x" = false :=
  ⟨(claim_C5 "x").1 (by decide),
   ((claim_C5 "x").2.1 (Or.inl (by decide))).1,
   ((claim_C5 "x").2.1 (Or.inl (by decide))).2,
   ((claim_C5 "x").2.2.1 (Or.inl (by decide))).1,
   ((claim_C5 "x").2.2.1 (Or.inl (by decide))).2,
   (claim_C5 "x").2.2.2 (Or.inl (by decide))⟩

/-- `getBrandValue` and `getBrandName` agree whenever the extracted id does
not name an inherited `Object.prototype` member. -/
theorem getBrandValue_eq_str (st : UrlState)
    (h : ∀ id, getLocationId st = some id → objectProtoProps.contains id = false) :
    getBrandValue st = JsBrandValue.str (getBrandName st) := by
  cases hid : getLocationId st with
  | none => simp [getBrandValue, getBrandName, hid]
  | some id =>
    by_cases h0 : id = ""
    · simp [getBrandValue, getBrandName, hid, h0]
    · cases hl : lookupLocationName id with
      | some b => simp [getBrandValue, getBrandName, bracketLookup, hid, h0, hl]
      | none =>
        have hmem : id ∉ objectProtoProps := by simpa using h id hid
        simp [getBrandValue, getBrandName, bracketLookup, hid, h0, hl, hmem]

/-- Counterexample to C2: on path `/location/constructor/x` the extracted
identifier "constructor" is not a key of the static table, yet the bracket
lookup `CONFIG.locationNames['constructor']` finds the inherited
`Object.prototype.constructor` — a truthy non-string value — so the
function returns that value, not the default brand "GHL". -/
theorem claim_C2_counterexample :
    getLocationId ⟨"/location/constructor/x", "", none⟩ = some "constructor" ∧
    lookupLocationName "constructor" = none ∧
    getBrandValue ⟨"/location/constructor/x", "", none⟩ =
      JsBrandValue.nonString "constructor" ∧
    getBrandValue ⟨"/location/constructor/x", "", none⟩ ≠
      JsBrandValue.str "GHL" := by
  decide

/-- C2 amended: the FedImpact path resolves to the string "FedImpact"; a URL
whose extracted identifier is neither a table key nor an inherited
`Object.prototype` property name (bracket lookup `undefined`), or whose URL
carries no identifier at all, resolves to the default brand "GHL"; but an
identifier naming an inherited `Object.prototype` member makes the function
return that member's truthy non-string value instead of the default. -/
theorem claim_C2_amended_thm :
    getBrandValue ⟨"/v2/location/IgHEOk98NvraO0gtWVaL/contacts/detail/abc", "", none⟩ =
      JsBrandValue.str "FedImpact" ∧
    (∀ st : UrlState, ∀ id, getLocationId st = some id →
      bracketLookup id = BracketLookup.undef →
      getBrandValue st = JsBrandValue.str "GHL") ∧
    (∀ st : UrlState, getLocationId st = none →
      getBrandValue st = JsBrandValue.str "GHL") ∧
    (∀ st : UrlState, ∀ id, getLocationId st = some id →
      bracketLookup id = BracketLookup.inherited →
      getBrandValue st = JsBrandValue.nonString id) := by
  refine ⟨by decide, ?_, ?_, ?_⟩
  · intro st id hid hbr
    by_cases h0 : id = ""
    · simp [getBrandValue, hid, h0, defaultBrandName]
    · simp [getBrandValue, hid, h0, hbr, defaultBrandName]
  · intro st hid
    simp [getBrandValue, hid, defaultBrandName]
  · intro st id hid hbr
    by_cases h0 : id = ""
    · subst h0
      exact absurd hbr (by decide)
    · simp [getBrandValue, hid, h0, hbr]

/-- Witness for C2 (amended): an unmapped ordinary identifier and an
identifier-free path default to "GHL", while the inherited property name
"constructor" yields the non-string inherited value. -/
theorem claim_C2_witness :
    getBrandValue ⟨"/v2/location/ZZZ/x", "", none⟩ = JsBrandValue.str "GHL" ∧
    getBrandValue ⟨"/", "", none⟩ = JsBrandValue.str "GHL" ∧
    getBrandValue ⟨"/location/constructor/x", "", none⟩ =
      JsBrandValue.nonString "constructor" :=
  ⟨claim_C2_amended_thm.2.1 ⟨"/v2/location/ZZZ/x", "", none⟩ "ZZZ"
      (by decide) (by decide),
   claim_C2_amended_thm.2.2.1 ⟨"/", "", none⟩ (by decide),
   claim_C2_amended_thm.2.2.2 ⟨"/location/constructor/x", "", none⟩ "constructor"
      (by decide) (by decide)⟩

/-- Appending strategy lists: the first list is searched first. -/
theorem findSome_append {α β : Type} (f : α → Option β) (l1 l2 : List α) :
    (l1 ++ l2).findSome? f =
      match l1.findSome? f with
      | some b => some b
      | none => l2.findSome? f := by
  induction l1 with
  | nil => rfl
  | cons a l ih =>
    cases hfa : f a with
    | some b => simp [List.findSome?, hfa]
    | none => simp [List.findSome?, hfa, ih]

/-- The cascade loop returns exactly the first slot whose strategy produced
a validated non-empty candidate. -/
theorem runStrategies_eq_findSome (l : List StratResult) :
    runStrategies l = l.findSome? stratHit := by
  induction l with
  | nil => rfl
  | cons a l ih =>
    cases a with
    | thrown => simpa [runStrategies, List.findSome?, stratHit] using ih
    | noMatch => simpa [runStrategies, List.findSome?, stratHit] using ih
    | found s =>
      by_cases h : s ≠ "" ∧ jsTrim s ≠ "" <;>
        simp [runStrategies, List.findSome?, stratHit, h, ih]

/-- C3: the cascade runs its strategies strictly in the fixed priority
order and the first validated non-empty candidate wins — the result is the
first hit of the full ordered list; whenever any structural detector
(contact detail, workflow, or form builder) produces a valid candidate the
cascade returns the first structural hit, whatever the generic detectors
and the URL fallback would produce; the generic detectors (active nav item,
breadcrumb, page header) are consulted only when every structural detector
misses, and the URL-derived fallback only when every DOM-based detector
misses. -/
theorem claim_C3 (doc : DocState) :
    extractPageContext doc = (stratList doc).findSome? stratHit ∧
    (∀ cs, (structuralStrats doc).findSome? stratHit = some cs →
      extractPageContext doc = some cs) ∧
    ((structuralStrats doc).findSome? stratHit = none →
      ∀ cg, (genericStrats doc).findSome? stratHit = some cg →
        extractPageContext doc = some cg) ∧
    ((structuralStrats doc).findSome? stratHit = none →
      (genericStrats doc).findSome? stratHit = none →
      extractPageContext doc = stratHit (urlStrat doc.url)) := by
  have hx : extractPageContext doc = (stratList doc).findSome? stratHit := by
    rw [show extractPageContext doc = runStrategies (stratList doc) from rfl,
      runStrategies_eq_findSome]
  refine ⟨hx, ?_, ?_, ?_⟩
  · intro cs hcs
    rw [hx, stratList, findSome_append, hcs]
  · intro h1 cg hcg
    rw [hx, stratList, findSome_append, h1, findSome_append, hcg]
  · intro h1 h2
    rw [hx, stratList, findSome_append, h1, findSome_append, h2]
    cases hu : stratHit (urlStrat doc.url) <;> simp [List.findSome?, hu]

/-- Witness document for C3: the contact-detail strategy (structural, first
slot) finds "Crystal Johnson" while the page-header strategy (generic) finds
"Dashboard". -/
def docC3 : DocState :=
  ⟨⟨"/v2/location/8K55T8slMH0JRhCDHBEW/contacts/detail/xyz", "", none⟩,
   StratResult.found "Crystal Johnson", StratResult.noMatch, StratResult.noMatch,
   StratResult.noMatch, StratResult.noMatch, StratResult.found "Dashboard"⟩

/-- Second witness document for C3: the workflow strategy (structural,
second slot) finds "My Workflow" while the active-nav-item strategy
(generic) finds "Automation". -/
def docC3w : DocState :=
  ⟨⟨"/v2/workflow/abc", "", none⟩, StratResult.noMatch,
   StratResult.found "My Workflow", StratResult.noMatch,
   StratResult.found "Automation", StratResult.noMatch, StratResult.noMatch⟩

/-- Witness for C3: in both documents the structural extractor's candidate
wins over the valid generic candidate. -/
theorem claim_C3_witness :
    extractPageContext docC3 = some (cleanContext "Crystal Johnson") ∧
    extractPageContext docC3w = some (cleanContext "My Workflow") :=
  ⟨(claim_C3 docC3).2.1 (cleanContext "Crystal Johnson") (by decide),
   (claim_C3 docC3w).2.1 (cleanContext "My Workflow") (by decide)⟩

/-- A thrown strategy anywhere in the cascade behaves exactly like a removed
strategy. -/
theorem runStrategies_drop_thrown (xs ys : List StratResult) :
    runStrategies (xs ++ StratResult.thrown :: ys) = runStrategies (xs ++ ys) := by
  induction xs with
  | nil => rfl
  | cons a xs ih =>
    cases a with
    | thrown => simpa [runStrategies] using ih
    | noMatch => simpa [runStrategies] using ih
    | found s =>
      by_cases h : s ≠ "" ∧ jsTrim s ≠ "" <;> simp [runStrategies, h, ih]

/-- A no-match strategy anywhere in the cascade behaves exactly like a
removed strategy. -/
theorem runStrategies_drop_noMatch (xs ys : List StratResult) :
    runStrategies (xs ++ StratResult.noMatch :: ys) = runStrategies (xs ++ ys) := by
  induction xs with
  | nil => rfl
  | cons a xs ih =>
    cases a with
    | thrown => simpa [runStrategies] using ih
    | noMatch => simpa [runStrategies] using ih
    | found s =>
      by_cases h : s ≠ "" ∧ jsTrim s ≠ "" <;> simp [runStrategies, h, ih]

/-- C7: an exception inside one strategy is caught and treated as no-match
for that strategy only — at any position in the cascade, a thrown strategy
leaves the result exactly as if that strategy were skipped, and exactly as
if it had returned no-match; the cascade's result type `Option String` has
no error alternative, so no strategy failure propagates out of the
cascade. -/
theorem claim_C7 (xs ys : List StratResult) :
    runStrategies (xs ++ StratResult.thrown :: ys) = runStrategies (xs ++ ys) ∧
    runStrategies (xs ++ StratResult.thrown :: ys) =
      runStrategies (xs ++ StratResult.noMatch :: ys) :=
  ⟨runStrategies_drop_thrown xs ys,
   (runStrategies_drop_thrown xs ys).trans (runStrategies_drop_noMatch xs ys).symm⟩

/-- C6: in the top window, applying the title update twice with the same
document and URL state never writes on the second application (it recomputes
the same composed title, finds it equal to the current title, and performs
no write), and when a context is found and the composed title differs from
the initial title the first application writes exactly once — so the pair
performs exactly one title mutation. -/
theorem claim_C6 (doc : DocState) (s : TitleState) :
    (updateTitle false doc (updateTitle false doc s).state).writes = 0 ∧
    (updateTitle false doc (updateTitle false doc s).state).state =
      (updateTitle false doc s).state ∧
    (∀ c, extractPageContext doc = some c →
      s.title ≠ composeTitle c (getBrandName doc.url) →
      (updateTitle false doc s).writes = 1) := by
  cases hc : extractPageContext doc with
  | none =>
    refine ⟨?_, ?_, ?_⟩
    · simp [updateTitle, hc]
    · simp [updateTitle, hc]
    · intro c hc2
      exact absurd hc2 (by simp)
  | some c =>
    have hkey : ∀ s1 : TitleState,
        updateTitle false doc s1 =
          if s1.title = composeTitle c (getBrandName doc.url) then
            { state := s1, messages := [], writes := 0 }
          else
            { state := { title := composeTitle c (getBrandName doc.url) },
              messages := [], writes := 1 } := by
      intro s1
      by_cases h1 : s1.title = composeTitle c (getBrandName doc.url) <;>
        simp [updateTitle, hc, h1]
    refine ⟨?_, ?_, ?_⟩
    · simp only [hkey]
      by_cases h1 : s.title = composeTitle c (getBrandName doc.url) <;> simp [h1]
    · simp only [hkey]
      by_cases h1 : s.title = composeTitle c (getBrandName doc.url) <;> simp [h1]
    · intro c2 hc2 hne2
      injection hc2 with hcc
      subst hcc
      rw [hkey, if_neg hne2]

/-- Witness document for C6: only the page-header strategy matches, with
candidate "Dashboard". -/
def docC6 : DocState :=
  ⟨⟨"/v2/dashboard", "", none⟩, StratResult.noMatch, StratResult.noMatch,
   StratResult.noMatch, StratResult.noMatch, StratResult.noMatch,
   StratResult.found "Dashboard"⟩

/-- Witness for C6: starting from title "GoHighLevel", the first update
writes once and the second writes nothing. -/
theorem claim_C6_witness :
    (updateTitle false docC6 (updateTitle false docC6 ⟨"GoHighLevel"⟩).state).writes = 0 ∧
    (updateTitle false docC6 ⟨"GoHighLevel"⟩).writes = 1 :=
  ⟨(claim_C6 docC6 ⟨"GoHighLevel"⟩).1,
   (claim_C6 docC6 ⟨"GoHighLevel"⟩).2.2 "Dashboard" (by decide) (by decide)⟩

/-- C8: when every strategy fails — the cascade returns `none` — the title
update performs no write, posts no message, and leaves the title state
unchanged, in either frame role. -/
theorem claim_C8 (inIframe : Bool) (doc : DocState) (s : TitleState)
    (h : extractPageContext doc = none) :
    updateTitle inIframe doc s = { state := s, messages := [], writes := 0 } := by
  simp [updateTitle, h]

/-- Witness document for C8: no strategy matches and the URL path yields no
usable segment. -/
def docC8 : DocState :=
  ⟨⟨"/v2/location/IgHEOk98NvraO0gtWVaL", "", none⟩, StratResult.noMatch,
   StratResult.noMatch, StratResult.noMatch, StratResult.noMatch,
   StratResult.noMatch, StratResult.noMatch⟩

/-- Witness for C8: the title "GoHighLevel" is left unchanged. -/
theorem claim_C8_witness :
    updateTitle false docC8 ⟨"GoHighLevel"⟩ = ⟨⟨"GoHighLevel"⟩, [], 0⟩ :=
  claim_C8 false docC8 ⟨"GoHighLevel"⟩ (by decide)

/-- The structured message a nested frame posts for context `c` and brand
`b` (src/content.js lines 429-434). -/
def titleUpdateMsg (c b : String) : TitleMsg :=
  { msgType := "GHL_TAB_TITLE_UPDATE", title := composeTitle c b,
    context := c, brandName := b }

/-- C9: a nested frame that extracts a context never writes the title
directly: it performs zero writes, leaves its own title state unchanged, and
posts exactly one structured `GHL_TAB_TITLE_UPDATE` message carrying the
composed title; and after the top frame's listener handles that message the
top frame's title equals the relayed composed title. -/
theorem claim_C9 (doc : DocState) (sFrame sTop : TitleState) (c : String)
    (h : extractPageContext doc = some c) :
    (updateTitle true doc sFrame).writes = 0 ∧
    (updateTitle true doc sFrame).state = sFrame ∧
    (updateTitle true doc sFrame).messages =
      [titleUpdateMsg c (getBrandName doc.url)] ∧
    (handleMessage (titleUpdateMsg c (getBrandName doc.url)) sTop).1.title =
      composeTitle c (getBrandName doc.url) := by
  refine ⟨?_, ?_, ?_, ?_⟩
  · simp [updateTitle, h]
  · simp [updateTitle, h]
  · simp [updateTitle, h, titleUpdateMsg]
  · by_cases ht : sTop.title = composeTitle c (getBrandName doc.url)
    · rw [handleMessage, if_neg]
      · exact ht
      · intro hcond
        exact hcond.2.2 ht
    · rw [handleMessage, if_pos ⟨rfl, composeTitle_ne_empty _ _, ht⟩]
      rfl

/-- Witness document for C9: a nested workflow-editor frame whose workflow
strategy finds "My Workflow" and whose URL carries no location identifier,
so the brand resolves to the default "GHL". -/
def docC9 : DocState :=
  ⟨⟨"/v2/workflow/123", "", none⟩, StratResult.noMatch,
   StratResult.found "My Workflow", StratResult.noMatch, StratResult.noMatch,
   StratResult.noMatch, StratResult.noMatch⟩

/-- Witness for C9: the nested frame writes nothing and the top frame ends
with the relayed composed title "My Workflow | GHL". -/
theorem claim_C9_witness :
    (updateTitle true docC9 ⟨"A"⟩).writes = 0 ∧
    (handleMessage (titleUpdateMsg "My Workflow" (getBrandName docC9.url))
       ⟨"B"⟩).1.title = composeTitle "My Workflow" (getBrandName docC9.url) :=
  ⟨(claim_C9 docC9 ⟨"A"⟩ ⟨"B"⟩ "My Workflow" (by decide)).1,
   (claim_C9 docC9 ⟨"A"⟩ ⟨"B"⟩ "My Workflow" (by decide)).2.2.2⟩

/-- The pathname of C1's stated input. -/
def pathC1 : String := "/v2/location/X/some-custom-report"

/-- C1's stated document: no DOM-based strategy matches. -/
def docC1 : DocState :=
  ⟨⟨pathC1, "", none⟩, StratResult.noMatch, StratResult.noMatch,
   StratResult.noMatch, StratResult.noMatch, StratResult.noMatch,
   StratResult.noMatch⟩

/-- Counterexample to C1: on path `/v2/location/X/some-custom-report` the
URL-path fallback returns no match — the segment "some-custom-report" has 18
characters all in `[0-9a-zA-Z-]`, so the identifier test
`/^[0-9a-zA-Z-]{15,}$/i`, whose class includes the hyphen, skips it — hence
the cascade returns `none`, not "Some Custom Report", and the title is not
updated. -/
theorem claim_C1_counterexample :
    extractFromUrlPath pathC1 = none ∧
    extractPageContext docC1 = none ∧
    updateTitle false docC1 ⟨"GoHighLevel"⟩ = ⟨⟨"GoHighLevel"⟩, [], 0⟩ := by
  decide

/-- The underscore variant of C1's pathname, whose final segment does not
match the identifier pattern (underscore is outside `[0-9a-zA-Z-]`). -/
def pathC1u : String := "/v2/location/X/some_custom_report"

/-- The underscore-variant document: no DOM-based strategy matches. -/
def docC1u : DocState :=
  ⟨⟨pathC1u, "", none⟩, StratResult.noMatch, StratResult.noMatch,
   StratResult.noMatch, StratResult.noMatch, StratResult.noMatch,
   StratResult.noMatch⟩

/-- C1 amended: the 18-character hyphenated segment is skipped as
identifier-shaped, so the stated path yields no title update; on the
underscore variant `/v2/location/X/some_custom_report` the fallback yields
"Some Custom Report" and the composed title is "Some Custom Report | GHL",
written once. -/
theorem claim_C1_amended_thm :
    extractPageContext docC1u = some "Some Custom Report" ∧
    (updateTitle false docC1u ⟨"GoHighLevel"⟩).state.title = "Some Custom Report | GHL" ∧
    (updateTitle false docC1u ⟨"GoHighLevel"⟩).writes = 1 := by
  decide

end GhlTabTitle
